import Mathlib

/-!
# BioDbCoRe pipeline — a shallow embedding of `src/biodbcore/db/pipeline.py`

This file embeds the `Pipeline` class of the repository in Lean 4 and proves
the specification's claims about it.

Modelling conventions:
* A Python `str` is a Lean `String`; character-level operations go through
  `String.data` (`List Char`).
* A Python attribute that may hold `None` is an `Option`; Python truthiness
  of optional strings and integers is made explicit (`pyTruthyStr`,
  `pyTruthyNat`): `None`, `""` and `0` are falsy.
* The filesystem and the three external collaborators (RefSeq retrieval,
  ENA search, FASTQ download) are oracles bundled in a `Collaborators`
  record; directory structure is an explicit finite tree (`FsTree`).
* Printing to stdout and each collaborator invocation are recorded as
  `Event`s, so "collaborator never invoked" claims are statements about the
  event trace.
* Python exceptions are `Except String`; a raised error carries no result.
-/

/-- Python truthiness of an optional string: `None` and `""` are falsy. -/
def pyTruthyStr : Option String → Bool
  | none => false
  | some s => !s.data.isEmpty

/-- Python truthiness of an optional integer: `None` and `0` are falsy. -/
def pyTruthyNat : Option Nat → Bool
  | none => false
  | some n => n != 0

/-- Python `str.strip()` on the character list: drop whitespace from both ends. -/
def pyStripChars (l : List Char) : List Char :=
  ((l.dropWhile Char.isWhitespace).reverse.dropWhile Char.isWhitespace).reverse

/-- Python `line.strip()`. -/
def pyStrip (s : String) : String := ⟨pyStripChars s.data⟩

/-- Python `sequence.replace("N", "")`: remove every uppercase `N` (and only those). -/
def pyRemoveN (s : String) : String := ⟨s.data.filter (fun c => c ≠ 'N')⟩

/-- Python `line.startswith(">")`. -/
def pyStartsWithGt (s : String) : Bool :=
  match s.data with
  | [] => false
  | c :: _ => c == '>'

/-- One iteration of the loop of `calculate_genome_size_from_file`
(pipeline.py lines 177–181): header lines are skipped, otherwise the
stripped line's length is added to `genome_size` and its length without
`N` to `genome_size_ungapped`. -/
def genomeSizeStep (acc : Nat × Nat) (line : String) : Nat × Nat :=
  if pyStartsWithGt line then acc
  else
    let sequence := pyStrip line
    (acc.1 + sequence.data.length, acc.2 + (pyRemoveN sequence).data.length)

/-- The loop of `calculate_genome_size_from_file` over the file's lines. -/
def calculate_genome_size_from_lines (lines : List String) : Nat × Nat :=
  lines.foldl genomeSizeStep (0, 0)

/-- Python text-file line iteration: split after every newline character,
keeping the newline in the line, with a final line for a trailing fragment. -/
def pyFileLinesAux : List Char → List Char → List (List Char)
  | [], acc => if acc.isEmpty then [] else [acc.reverse]
  | c :: cs, acc =>
    if c = '\n' then (c :: acc).reverse :: pyFileLinesAux cs []
    else pyFileLinesAux cs (c :: acc)

/-- The lines of a file's decoded text content, as Python iterates them. -/
def pyFileLines (content : String) : List String :=
  (pyFileLinesAux content.data []).map String.mk

/-- The function `calculate_genome_size_from_file` applied to decoded text `content`
(the gzip layer only changes how bytes are decoded, not the line loop). -/
def calculate_genome_size_from_content (content : String) : Nat × Nat :=
  calculate_genome_size_from_lines (pyFileLines content)

example : calculate_genome_size_from_content ">chr1\nACGTNN\n" = (6, 4) := by decide

/-- A path is absolute when it starts with the separator (POSIX `os.path`). -/
def isAbsolute (s : String) : Bool :=
  match s.data with
  | [] => false
  | c :: _ => c == '/'

/-- Whether the path ends with the separator. -/
def endsWithSlash (s : String) : Bool :=
  match s.data.getLast? with
  | some c => c == '/'
  | none => false

/-- POSIX `os.path.join(a, b)` for two components: an absolute second
component replaces the first; otherwise they are joined with `/` unless the
first is empty or already ends in `/`. -/
def pathJoin (a b : String) : String :=
  if isAbsolute b then b
  else if a.data.isEmpty then b
  else if endsWithSlash a then a ++ b
  else a ++ "/" ++ b

/-- Python `os.path.abspath` relative to the working directory `cwd`
(path normalisation such as collapsing `..` is not modelled; no claim
depends on it). -/
def pyAbspath (cwd p : String) : String :=
  if isAbsolute p then p else pathJoin cwd p

/-- A directory's contents: its files' names and its named subdirectories.
This is the filesystem view `os.walk` iterates over. -/
inductive FsTree where
  | node (files : List String) (dirs : List (String × FsTree))

mutual
/-- The file paths `os.walk(root)` produces in descent order for the loop of
`list_sequence_files` (pipeline.py lines 150–152): the files of `root`
first, then each subdirectory's files recursively, every name joined onto
the root with `os.path.join`. -/
def walkFiles (root : String) : FsTree → List String
  | FsTree.node files dirs =>
    files.map (fun n => pathJoin root n) ++ walkDirs root dirs

/-- Recursion of `walkFiles` over the listed subdirectories, in listing order. -/
def walkDirs (root : String) : List (String × FsTree) → List String
  | [] => []
  | (d, t) :: rest => walkFiles (pathJoin root d) t ++ walkDirs root rest
end

/-- One recorded observable action of the pipeline: a `print` to stdout or
one invocation of a collaborator or of the genome-size calculator. -/
inductive Event where
  | printMsg (msg : String)
  | calcCall (path : String)
  | refseqCall (taxonomy_id : Nat)
  | searchCall (genome_size_ungapped : Option Nat)
  | downloadCall (candidates : List String) (dest : String)
deriving DecidableEq, Repr

/-- Method `Pipeline.list_sequence_files(directory, print_files)`
(pipeline.py lines 141–163). `tree` is what the filesystem holds at
`directory` (`none` when `os.path.exists` is false). Returns the collected
file paths together with the `print` events the call emits; the function is
total — a missing directory yields an empty list, never an exception. -/
def list_sequence_files (tree : Option FsTree) (directory : String)
    (print_files : Bool) : List String × List Event :=
  match tree with
  | none => ([], [Event.printMsg ("Directory " ++ directory ++ " does not exist.")])
  | some t =>
    let file_paths := walkFiles directory t
    if file_paths.isEmpty then
      ([], [Event.printMsg "No sequence files found in the directory."])
    else if print_files then
      (file_paths,
        Event.printMsg "\nSequence files found in the directory:" ::
          file_paths.map (fun fp => Event.printMsg ("- " ++ fp)))
    else
      (file_paths, [])

example : (list_sequence_files (some (FsTree.node ["a"] [("d", FsTree.node ["b"] [])])) "/x" false).1
    = ["/x/a", "/x/d/b"] := by decide

/-- A value stored in a result dictionary of the pipeline. -/
inductive PyValue where
  | str (s : String)
  | num (n : Nat)
  | strList (l : List String)
  | runMap (m : List (String × List String))
deriving DecidableEq, Repr

/-- A Python `dict` result in insertion order. -/
abbrev PyDict := List (String × PyValue)

/-- Python `d.get(k)`: the value at the first occurrence of key `k`, if any. -/
def dictGet (d : PyDict) (k : String) : Option PyValue :=
  match d.find? (fun p => p.1 == k) with
  | some p => some p.2
  | none => none

/-- The filter bag handed to the ENA search collaborator at construction
(pipeline.py lines 39–56), after the constructor's own processing. -/
structure FilterBag where
  library_strategy : Option (List String)
  instrument_platform : Option (List String)
  max_results : Nat
  min_coverage : Option Nat
  max_coverage : Option Nat
  assembly_quality : Option String
deriving DecidableEq, Repr

/-- The attributes of a `Pipeline` object. `genome_size` is not assigned in
`__init__`; it is modelled as `none` until first assigned — on every
reachable path the attribute is written before it is read. -/
structure PipelineState where
  taxonomy_id : Nat
  outdir : String
  mode : String
  reference_genome : Option String
  sequence_dir : Option String
  genome_size : Option Nat
  genome_size_ungapped : Option Nat
  filter : FilterBag
deriving DecidableEq, Repr

/-- The pipeline's environment: the filesystem and the three external
collaborators, as oracles.
* `fs path` is the decoded text content of the file at `path` (`none` when
  opening raises `FileNotFoundError`); gzip decoding is part of the oracle.
* `dirTree path` is the directory tree rooted at `path` (`none` when
  `os.path.exists` is false).
* the other three are the collaborator operations of §6 of the design. -/
structure Collaborators where
  fs : String → Option String
  dirTree : String → Option FsTree
  get_refseq_genomes : Nat → String × Nat × Nat
  search_sequence_data : Option Nat → List String
  fetch_fastq_files : List String → String → List (String × List String)

/-- Method `Pipeline.calculate_genome_size_from_file` (pipeline.py lines 166–183)
against the filesystem oracle: a missing file propagates the error, a
readable file's decoded content goes through the line loop. -/
def calculate_genome_size_from_file (fs : String → Option String)
    (reference_genome : String) : Except String (Nat × Nat) :=
  match fs reference_genome with
  | none => Except.error ("FileNotFoundError: " ++ reference_genome)
  | some content => Except.ok (calculate_genome_size_from_content content)

/-- Constructor `Pipeline.__init__` (pipeline.py lines 16–56): record the configuration
(`outdir` made absolute), leave `genome_size` unassigned, and process the
keyword filter bag exactly as the `ENASearcher` construction does —
strategy and platform lists are lowercased and a missing or empty list
becomes `None`, `max_results` defaults to 10. -/
def Pipeline.init (cwd : String) (taxonomy_id : Nat) (outdir : String)
    (mode : String) (reference_genome : Option String)
    (sequence_dir : Option String) (genome_size_ungapped : Option Nat)
    (library_strategy : Option (List String))
    (instrument_platform : Option (List String)) (max_results : Option Nat)
    (minimum_coverage : Option Nat) (maximum_coverage : Option Nat)
    (assembly_quality : Option String) : PipelineState :=
  { taxonomy_id := taxonomy_id
    outdir := pyAbspath cwd outdir
    mode := mode
    reference_genome := reference_genome
    sequence_dir := sequence_dir
    genome_size := none
    genome_size_ungapped := genome_size_ungapped
    filter := {
      library_strategy :=
        match library_strategy with
        | some l => if l.isEmpty then none else some (l.map String.toLower)
        | none => none
      instrument_platform :=
        match instrument_platform with
        | some l => if l.isEmpty then none else some (l.map String.toLower)
        | none => none
      max_results := max_results.getD 10
      min_coverage := minimum_coverage
      max_coverage := maximum_coverage
      assembly_quality := assembly_quality } }

/-- Method `Pipeline.run_refseq` (pipeline.py lines 75–98): a truthy local
reference genome is sized via the calculator, otherwise the retrieval
collaborator is asked; both branches store path and sizes on the object,
report them, and return the three-key result dictionary. -/
def run_refseq (c : Collaborators) (st : PipelineState) :
    Except String (PyDict × PipelineState × List Event) :=
  if pyTruthyStr st.reference_genome then
    match calculate_genome_size_from_file c.fs (st.reference_genome.getD "") with
    | Except.error e => Except.error e
    | Except.ok (gs, gsu) =>
      Except.ok
        ([("reference_genome", PyValue.str (st.reference_genome.getD "")),
          ("genome_size", PyValue.num gs),
          ("genome_size_ungapped", PyValue.num gsu)],
         { st with genome_size := some gs, genome_size_ungapped := some gsu },
         [Event.printMsg ("Using local reference genome: "
            ++ st.reference_genome.getD ""),
          Event.calcCall (st.reference_genome.getD ""),
          Event.printMsg ("Genome size: " ++ toString gs ++ " bp"),
          Event.printMsg ("Ungapped genome size: " ++ toString gsu ++ " bp"),
          Event.printMsg ("RefSeq genome saved to: "
            ++ st.reference_genome.getD "")])
  else
    let (p, gs, gsu) := c.get_refseq_genomes st.taxonomy_id
    Except.ok
      ([("reference_genome", PyValue.str p),
        ("genome_size", PyValue.num gs),
        ("genome_size_ungapped", PyValue.num gsu)],
       { st with reference_genome := some p, genome_size := some gs,
                 genome_size_ungapped := some gsu },
       [Event.printMsg "Fetching RefSeq genome data...",
        Event.refseqCall st.taxonomy_id,
        Event.printMsg ("Genome size: " ++ toString gs ++ " bp"),
        Event.printMsg ("Ungapped genome size: " ++ toString gsu ++ " bp"),
        Event.printMsg ("RefSeq genome saved to: " ++ p)])

/-- The genome-size-hint resolution of `Pipeline.run_ena`
(pipeline.py lines 111–117): when the stored ungapped size is falsy
(`None` or `0`) and a reference genome is truthy, both sizes are recomputed
from that file; when the stored size is truthy it is reported as-is;
otherwise an advisory is printed and nothing changes. -/
def resolve_genome_hint (c : Collaborators) (st1 : PipelineState) :
    Except String (PipelineState × List Event) :=
  if !pyTruthyNat st1.genome_size_ungapped && pyTruthyStr st1.reference_genome then
    match calculate_genome_size_from_file c.fs (st1.reference_genome.getD "") with
    | Except.error e => Except.error e
    | Except.ok (gs, gsu) =>
      Except.ok
        ({ st1 with genome_size := some gs, genome_size_ungapped := some gsu },
         [Event.calcCall (st1.reference_genome.getD "")])
  else if pyTruthyNat st1.genome_size_ungapped then
    Except.ok (st1,
      [Event.printMsg ("Using provided ungapped genome size: "
        ++ toString (st1.genome_size_ungapped.getD 0))])
  else
    Except.ok (st1,
      [Event.printMsg "Genome size not provided. The coverage filter may not be optimal without it."])

/-- Method `Pipeline.run_ena` (pipeline.py lines 100–138). A truthy local sequence
directory is inventoried and returned without touching the network;
otherwise the sequence directory becomes the output directory, the
genome-size hint is resolved (`resolve_genome_hint`), the search
collaborator is invoked, and an empty candidate list short-circuits before
any download. -/
def run_ena (c : Collaborators) (st : PipelineState) :
    Except String (PyDict × PipelineState × List Event) :=
  if pyTruthyStr st.sequence_dir then
    let d := st.sequence_dir.getD ""
    let scan := list_sequence_files (c.dirTree d) d true
    Except.ok
      ([("sequence_dir", PyValue.str d),
        ("sequence_files", PyValue.strList scan.1)],
       st,
       Event.printMsg ("Using local sequences from directory: " ++ d) :: scan.2)
  else
    match resolve_genome_hint c { st with sequence_dir := some st.outdir } with
    | Except.error e => Except.error e
    | Except.ok (st2, ev1) =>
      if (c.search_sequence_data st2.genome_size_ungapped).isEmpty then
        Except.ok
          ([("sequence_dir", PyValue.str (st2.sequence_dir.getD "")),
            ("sequence_data", PyValue.strList [])],
           st2,
           [Event.printMsg "Searching for sequence data in ENA..."] ++ ev1
             ++ [Event.searchCall st2.genome_size_ungapped,
                 Event.printMsg "No sequence data found."])
      else
        Except.ok
          ([("sequence_dir", PyValue.str (st2.sequence_dir.getD "")),
            ("run_accession_to_files", PyValue.runMap
              (c.fetch_fastq_files (c.search_sequence_data st2.genome_size_ungapped)
                (st2.sequence_dir.getD ""))),
            ("all_files_flat", PyValue.strList
              (list_sequence_files (c.dirTree (st2.sequence_dir.getD ""))
                (st2.sequence_dir.getD "") false).1)],
           st2,
           [Event.printMsg "Searching for sequence data in ENA..."] ++ ev1
             ++ [Event.searchCall st2.genome_size_ungapped,
                 Event.printMsg "Downloading FASTQ files...",
                 Event.downloadCall (c.search_sequence_data st2.genome_size_ungapped)
                   (st2.sequence_dir.getD "")]
             ++ (list_sequence_files (c.dirTree (st2.sequence_dir.getD ""))
                  (st2.sequence_dir.getD "") false).2)

/-- The attribute re-adoption of `both` mode (pipeline.py lines 66–70):
`self.genome_size`, `self.genome_size_ungapped` and `self.reference_genome`
are re-read from the reference stage's result dictionary via `.get`, the
current attribute standing in as the default for an absent key. -/
def adopt_refseq_results (refseq_results : PyDict) (st1 : PipelineState) :
    PipelineState :=
  { st1 with
      genome_size :=
        match dictGet refseq_results "genome_size" with
        | some (PyValue.num n) => some n
        | _ => st1.genome_size,
      genome_size_ungapped :=
        match dictGet refseq_results "genome_size_ungapped" with
        | some (PyValue.num n) => some n
        | _ => st1.genome_size_ungapped,
      reference_genome :=
        match dictGet refseq_results "reference_genome" with
        | some (PyValue.str s) => some s
        | _ => st1.reference_genome }

/-- Method `Pipeline.run` (pipeline.py lines 58–73). The result component is
`some` of the returned dictionary for modes `refseq` and `ena`; in mode
`both` the chain `run_refseq`, attribute re-adoption via `.get`, `run_ena`
is executed but the method body reaches its end without a `return`
statement, so the Python function returns `None` — modelled as `none`.
An unsupported mode raises `ValueError` before anything else happens. -/
def Pipeline.run (c : Collaborators) (st : PipelineState) :
    Except String (Option PyDict × PipelineState × List Event) :=
  if st.mode = "refseq" then
    match run_refseq c st with
    | Except.error e => Except.error e
    | Except.ok (r, st1, ev) => Except.ok (some r, st1, ev)
  else if st.mode = "ena" then
    match run_ena c st with
    | Except.error e => Except.error e
    | Except.ok (r, st1, ev) => Except.ok (some r, st1, ev)
  else if st.mode = "both" then
    match run_refseq c st with
    | Except.error e => Except.error e
    | Except.ok (refseq_results, st1, ev1) =>
      match run_ena c (adopt_refseq_results refseq_results st1) with
      | Except.error e => Except.error e
      | Except.ok (_, st3, ev2) => Except.ok (none, st3, ev1 ++ ev2)
  else
    Except.error ("Unsupported mode: " ++ st.mode)

/-- A concrete environment: no readable files, no directories, a retrieval
collaborator yielding a fixed genome, a search collaborator that finds no
candidate runs. -/
def sampleCollab : Collaborators :=
  { fs := fun _ => none
    dirTree := fun _ => none
    get_refseq_genomes := fun _ => ("/data/genome.fa", 10, 9)
    search_sequence_data := fun _ => []
    fetch_fastq_files := fun _ _ => [] }

/-- A pipeline constructed in mode `ena` with no optional inputs. -/
def enaState : PipelineState :=
  Pipeline.init "/" 1 "/out" "ena" none none none none none none none none none

/-- A pipeline constructed in mode `both` with no optional inputs. -/
def bothState : PipelineState :=
  Pipeline.init "/" 1 "/out" "both" none none none none none none none none none

/-- A pipeline constructed with an unsupported mode string. -/
def badState : PipelineState :=
  Pipeline.init "/" 1 "/out" "bogus" none none none none none none none none none

example :
    (Pipeline.run sampleCollab enaState).toOption.map (fun x => x.2.1.sequence_dir)
      = some (some "/out") := by decide
example :
    (Pipeline.run sampleCollab bothState).toOption.map (fun x => x.1) = some none := by
  decide

/-- The stripped length a non-header line contributes to `genome_size`. -/
def lineTotal (l : String) : Nat := (pyStrip l).data.length

/-- The stripped, `N`-free length a non-header line contributes to
`genome_size_ungapped`. -/
def lineUngapped (l : String) : Nat := (pyRemoveN (pyStrip l)).data.length

theorem genomeSize_foldl (lines : List String) (a b : Nat) :
    lines.foldl genomeSizeStep (a, b) =
      (a + ((lines.filter (fun l => !pyStartsWithGt l)).map lineTotal).sum,
       b + ((lines.filter (fun l => !pyStartsWithGt l)).map lineUngapped).sum) := by
  induction lines generalizing a b with
  | nil => simp
  | cons l ls ih =>
    cases h : pyStartsWithGt l with
    | true => simp [genomeSizeStep, h, ih]
    | false =>
      simp [genomeSizeStep, h, ih, lineTotal, lineUngapped, Nat.add_assoc]

theorem length_filter_ne_eq_iff (l : List Char) :
    (l.filter (fun c => c ≠ 'N')).length = l.length ↔ 'N' ∉ l := by
  rw [List.filter_length_eq_length]
  constructor
  · intro h hm
    have := h 'N' hm
    simp at this
  · intro h a ha
    have : a ≠ 'N' := fun he => h (he ▸ ha)
    simpa using this

theorem mem_of_mem_dropWhile {p : Char → Bool} {c : Char} :
    ∀ {l : List Char}, c ∈ l.dropWhile p → c ∈ l := by
  intro l
  induction l with
  | nil => simp
  | cons a t ih =>
    intro h
    rw [List.dropWhile_cons] at h
    by_cases ha : p a = true
    · simp only [ha, if_true] at h
      exact List.mem_cons_of_mem a (ih h)
    · simp only [ha, if_false] at h
      exact h

theorem mem_dropWhile_of_mem {p : Char → Bool} {c : Char} (hc : p c = false) :
    ∀ {l : List Char}, c ∈ l → c ∈ l.dropWhile p := by
  intro l
  induction l with
  | nil => simp
  | cons a t ih =>
    intro h
    rw [List.dropWhile_cons]
    by_cases ha : p a = true
    · simp only [ha, if_true]
      rcases List.mem_cons.mp h with rfl | ht
      · rw [hc] at ha; exact absurd ha (by simp)
      · exact ih ht
    · simpa [ha] using h

theorem mem_pyStripChars {c : Char} (hc : c.isWhitespace = false)
    (l : List Char) : c ∈ pyStripChars l ↔ c ∈ l := by
  unfold pyStripChars
  constructor
  · intro h
    rw [List.mem_reverse] at h
    have h1 := mem_of_mem_dropWhile h
    rw [List.mem_reverse] at h1
    exact mem_of_mem_dropWhile h1
  · intro h
    rw [List.mem_reverse]
    apply mem_dropWhile_of_mem hc
    rw [List.mem_reverse]
    exact mem_dropWhile_of_mem hc h

theorem sum_map_le {α : Type} (l : List α) (f g : α → Nat)
    (h : ∀ a ∈ l, f a ≤ g a) : (l.map f).sum ≤ (l.map g).sum := by
  induction l with
  | nil => simp
  | cons a t ih =>
    have h1 := h a (List.mem_cons_self a t)
    have h2 := ih fun x hx => h x (List.mem_cons_of_mem a hx)
    simp only [List.map_cons, List.sum_cons]
    omega

theorem sum_map_eq_iff {α : Type} (l : List α) (f g : α → Nat)
    (h : ∀ a ∈ l, f a ≤ g a) :
    (l.map f).sum = (l.map g).sum ↔ ∀ a ∈ l, f a = g a := by
  induction l with
  | nil => simp
  | cons a t ih =>
    have h1 := h a (List.mem_cons_self a t)
    have h2 : ∀ x ∈ t, f x ≤ g x := fun x hx => h x (List.mem_cons_of_mem a hx)
    have h3 := sum_map_le t f g h2
    simp only [List.map_cons, List.sum_cons, List.mem_cons]
    constructor
    · intro he
      have hfa : f a = g a := by omega
      have hts : (t.map f).sum = (t.map g).sum := by omega
      intro x hx
      rcases hx with rfl | hx
      · exact hfa
      · exact ((ih h2).mp hts) x hx
    · intro hall
      have hfa : f a = g a := hall a (Or.inl rfl)
      have hts : (t.map f).sum = (t.map g).sum :=
        (ih h2).mpr fun x hx => hall x (Or.inr hx)
      omega

theorem lineUngapped_le_lineTotal (l : String) : lineUngapped l ≤ lineTotal l :=
  List.length_filter_le _ _

theorem lineUngapped_eq_lineTotal_iff (l : String) :
    lineUngapped l = lineTotal l ↔ 'N' ∉ l.data := by
  unfold lineUngapped lineTotal pyRemoveN pyStrip
  rw [length_filter_ne_eq_iff]
  exact not_congr (mem_pyStripChars (by decide) l.data)

/-- C5: over every line not beginning with `>`, the calculator sums the
stripped line's length into `total_length` and the stripped line's length
with every uppercase `N` removed into `ungapped_length`; on the 2-line
input `">chr1\nACGTNN\n"` it returns `(6, 4)`, and lowercase `n` is not
removed (`">chr1\nacgtnn\n"` gives `(6, 6)`). -/
theorem calculate_genome_size_spec :
    (∀ lines : List String,
      calculate_genome_size_from_lines lines =
        (((lines.filter (fun l => !pyStartsWithGt l)).map lineTotal).sum,
         ((lines.filter (fun l => !pyStartsWithGt l)).map lineUngapped).sum))
    ∧ calculate_genome_size_from_content ">chr1\nACGTNN\n" = (6, 4)
    ∧ calculate_genome_size_from_content ">chr1\nacgtnn\n" = (6, 6) := by
  refine ⟨fun lines => ?_, by decide, by decide⟩
  simpa [calculate_genome_size_from_lines] using genomeSize_foldl lines 0 0

/-- C6: for every text input, `ungapped_length ≤ total_length`, with
equality exactly when no `N` occurs in any non-header line. -/
theorem ungapped_le_total :
    ∀ content : String,
      (calculate_genome_size_from_content content).2
          ≤ (calculate_genome_size_from_content content).1
      ∧ ((calculate_genome_size_from_content content).2
            = (calculate_genome_size_from_content content).1
          ↔ ∀ line ∈ pyFileLines content,
              pyStartsWithGt line = false → 'N' ∉ line.data) := by
  intro content
  have hfold := genomeSize_foldl (pyFileLines content) 0 0
  have hcalc : calculate_genome_size_from_content content
      = calculate_genome_size_from_lines (pyFileLines content) := rfl
  rw [hcalc, calculate_genome_size_from_lines, hfold]
  simp only [Nat.zero_add]
  set lines := pyFileLines content with hlines
  have hle : ∀ l ∈ lines.filter (fun l => !pyStartsWithGt l),
      lineUngapped l ≤ lineTotal l := fun l _ => lineUngapped_le_lineTotal l
  refine ⟨sum_map_le _ _ _ hle, ?_⟩
  rw [sum_map_eq_iff _ _ _ hle]
  constructor
  · intro h line hmem hhd
    have hmf : line ∈ lines.filter (fun l => !pyStartsWithGt l) := by
      rw [List.mem_filter]
      exact ⟨hmem, by simp [hhd]⟩
    exact (lineUngapped_eq_lineTotal_iff line).mp (h line hmf)
  · intro h line hmf
    rw [List.mem_filter] at hmf
    refine (lineUngapped_eq_lineTotal_iff line).mpr (h line hmf.1 ?_)
    have := hmf.2
    simp only [Bool.not_eq_true'] at this
    exact this

mutual
/-- Specification-side enumeration of a tree's files: each file of the tree
as its list of path components, directories excluded, in descent order. -/
def fileEntries : FsTree → List (List String)
  | FsTree.node files dirs =>
    files.map (fun f => [f]) ++ dirEntries dirs

/-- Recursion of `fileEntries` over listed subdirectories, each entry prefixed with the
subdirectory's name. -/
def dirEntries : List (String × FsTree) → List (List String)
  | [] => []
  | (d, t) :: rest =>
    (fileEntries t).map (fun comps => d :: comps) ++ dirEntries rest
end

/-- Joining a file's path components onto a root directory. -/
def joinComponents (root : String) (comps : List String) : String :=
  comps.foldl pathJoin root

mutual
theorem walkFiles_eq_fileEntries (root : String) (t : FsTree) :
    walkFiles root t = (fileEntries t).map (joinComponents root) := by
  match t with
  | FsTree.node files dirs =>
    rw [walkFiles, fileEntries, List.map_append, List.map_map,
      walkDirs_eq_dirEntries root dirs]
    rfl

theorem walkDirs_eq_dirEntries (root : String) (ds : List (String × FsTree)) :
    walkDirs root ds = (dirEntries ds).map (joinComponents root) := by
  match ds with
  | [] => rfl
  | (d, t) :: rest =>
    rw [walkDirs, dirEntries, List.map_append, List.map_map,
      walkFiles_eq_fileEntries (pathJoin root d) t,
      walkDirs_eq_dirEntries root rest]
    rfl
end

theorem data_append (a b : String) : (a ++ b).data = a.data ++ b.data := rfl

theorem isAbsolute_append (a b : String) (h : isAbsolute a = true) :
    isAbsolute (a ++ b) = true := by
  obtain ⟨c, l, hcl⟩ : ∃ c l, a.data = c :: l := by
    cases hd : a.data with
    | nil =>
      have hfa : isAbsolute a = false := by unfold isAbsolute; rw [hd]
      rw [hfa] at h
      cases h
    | cons c l => exact ⟨c, l, rfl⟩
  unfold isAbsolute at h ⊢
  rw [hcl] at h
  rw [data_append, hcl, List.cons_append]
  exact h

theorem pathJoin_isAbsolute (a b : String) (h : isAbsolute a = true) :
    isAbsolute (pathJoin a b) = true := by
  unfold pathJoin
  by_cases hb : isAbsolute b = true
  · rw [if_pos hb]
    exact hb
  · rw [if_neg hb]
    have hne : ¬a.data.isEmpty = true := by
      intro he
      rw [List.isEmpty_iff] at he
      have hfa : isAbsolute a = false := by unfold isAbsolute; rw [he]
      rw [hfa] at h
      cases h
    rw [if_neg hne]
    by_cases hs : endsWithSlash a = true
    · rw [if_pos hs]
      exact isAbsolute_append a b h
    · rw [if_neg hs]
      exact isAbsolute_append (a ++ "/") b (isAbsolute_append a "/" h)

theorem joinComponents_isAbsolute (comps : List String) (root : String)
    (h : isAbsolute root = true) :
    isAbsolute (joinComponents root comps) = true := by
  induction comps generalizing root with
  | nil => exact h
  | cons c rest ih =>
    exact ih (pathJoin root c) (pathJoin_isAbsolute root c h)

/-- On an existing directory the scanner's file list is exactly the
`os.walk` descent enumeration, in every branch of the function. -/
theorem fst_list_sequence_files (t : FsTree) (d : String) (pf : Bool) :
    (list_sequence_files (some t) d pf).1 = walkFiles d t := by
  unfold list_sequence_files
  by_cases he : (walkFiles d t).isEmpty = true
  · simp only [he, if_true]
    rw [List.isEmpty_iff] at he
    exact he.symm
  · by_cases hpf : pf <;> simp [he, hpf]

/-- C3 (amended): for every existing directory and verbosity flag, the
scanner returns, in descent order, one path per file of the tree —
directories excluded — each obtained by joining the file's components onto
the given directory path; those paths are absolute whenever the given
directory path is absolute (a relative directory yields relative paths). -/
theorem list_sequence_files_descent_order :
    ∀ (tree : FsTree) (directory : String) (print_files : Bool),
      (list_sequence_files (some tree) directory print_files).1
          = (fileEntries tree).map (joinComponents directory)
      ∧ (isAbsolute directory = true →
          ∀ p ∈ (list_sequence_files (some tree) directory print_files).1,
            isAbsolute p = true) := by
  intro tree directory pf
  rw [fst_list_sequence_files, walkFiles_eq_fileEntries]
  refine ⟨rfl, fun habs p hp => ?_⟩
  rw [List.mem_map] at hp
  obtain ⟨comps, _, rfl⟩ := hp
  exact joinComponents_isAbsolute comps directory habs

/-- C3 counterexample: on the relative directory path `"rel"` holding one
file `"a"`, the scanner returns `["rel/a"]`, which is not an absolute
path — the claim's "absolute paths of every file" fails for relative
directory arguments. -/
theorem list_sequence_files_relative_not_absolute :
    (list_sequence_files (some (FsTree.node ["a"] [])) "rel" true).1 = ["rel/a"]
    ∧ isAbsolute "rel/a" = false := by decide

/-- C9: called on a directory that does not exist, the scanner returns the
empty list together with the report printed for the caller; being a total
function of the tree oracle, it raises nothing. -/
theorem list_sequence_files_missing_dir :
    ∀ (directory : String) (print_files : Bool),
      list_sequence_files none directory print_files
        = ([], [Event.printMsg ("Directory " ++ directory ++ " does not exist.")]) := by
  intro directory pf
  rfl

/-- C4: an unsupported mode string makes `run` raise immediately, and the
outcome does not depend on the collaborators at all — no stage is invoked
and nothing is observable before the error. -/
theorem run_unsupported_mode_errors (c : Collaborators) (st : PipelineState)
    (h1 : st.mode ≠ "refseq") (h2 : st.mode ≠ "ena") (h3 : st.mode ≠ "both") :
    Pipeline.run c st = Except.error ("Unsupported mode: " ++ st.mode)
    ∧ ∀ c2 : Collaborators, Pipeline.run c2 st = Pipeline.run c st := by
  have he : ∀ c2 : Collaborators,
      Pipeline.run c2 st = Except.error ("Unsupported mode: " ++ st.mode) := by
    intro c2
    unfold Pipeline.run
    rw [if_neg h1, if_neg h2, if_neg h3]
  exact ⟨he c, fun c2 => (he c2).trans (he c).symm⟩

/-- C4 witness at the concrete mode string `"bogus"`. -/
theorem run_unsupported_mode_errors_witness :
    Pipeline.run sampleCollab badState
        = Except.error ("Unsupported mode: " ++ badState.mode)
    ∧ ∀ c2 : Collaborators,
        Pipeline.run c2 badState = Pipeline.run sampleCollab badState :=
  run_unsupported_mode_errors sampleCollab badState (by decide) (by decide)
    (by decide)

/-- Every event the scanner emits is a `print`: the scanner consults no
collaborator. -/
theorem list_sequence_files_events_print (tree : Option FsTree) (d : String)
    (pf : Bool) :
    ∀ e ∈ (list_sequence_files tree d pf).2, ∃ m, e = Event.printMsg m := by
  intro e he
  cases tree with
  | none =>
    simp only [list_sequence_files, List.mem_singleton] at he
    exact ⟨_, he⟩
  | some t =>
    simp only [list_sequence_files] at he
    by_cases h1 : (walkFiles d t).isEmpty = true
    · simp only [h1, if_true, List.mem_singleton] at he
      exact ⟨_, he⟩
    · by_cases hpf : pf = true
      · simp only [h1, if_false, hpf, if_true] at he
        cases he with
        | head => exact ⟨_, rfl⟩
        | tail _ hm =>
          obtain ⟨fp, _, hfp⟩ := List.exists_of_mem_map hm
          exact ⟨_, hfp.symm⟩
      · simp only [h1, if_false, hpf] at he
        simp at he

/-- C7: with a truthy local sequence directory the Sequencing Data Stage
returns exactly `{sequence_dir, sequence_files}` built from the scanner's
inventory, leaves the pipeline state untouched, and its whole event trace
consists of `print`s — neither the search nor the download collaborator is
invoked. -/
theorem run_ena_local_dir_skips_network (c : Collaborators)
    (st : PipelineState) (d : String) (h1 : st.sequence_dir = some d)
    (h2 : d ≠ "") :
    run_ena c st = Except.ok
      ([("sequence_dir", PyValue.str d),
        ("sequence_files", PyValue.strList (list_sequence_files (c.dirTree d) d true).1)],
       st,
       Event.printMsg ("Using local sequences from directory: " ++ d)
         :: (list_sequence_files (c.dirTree d) d true).2)
    ∧ ∀ e ∈ Event.printMsg ("Using local sequences from directory: " ++ d)
         :: (list_sequence_files (c.dirTree d) d true).2,
        ∃ m, e = Event.printMsg m := by
  have hd : d.data.isEmpty = false := by
    cases d with
    | mk data =>
      cases hdd : data with
      | nil => exact absurd (congrArg String.mk hdd) h2
      | cons a l => rfl
  have ht : pyTruthyStr st.sequence_dir = true := by
    rw [h1]
    show (!d.data.isEmpty) = true
    rw [hd]
    rfl
  constructor
  · unfold run_ena
    rw [if_pos ht, h1]
    rfl
  · intro e he
    rcases List.mem_cons.mp he with rfl | hm
    · exact ⟨_, rfl⟩
    · exact list_sequence_files_events_print (c.dirTree d) d true e hm

/-- The environment of the §8 scenario: a local sequence directory
`/data` holding three files. -/
def seqCollab : Collaborators :=
  { sampleCollab with
    dirTree := fun p =>
      if p = "/data" then some (FsTree.node ["r1.fq", "r2.fq", "r3.fq"] [])
      else none }

/-- A pipeline constructed in mode `ena` with `sequence_dir = "/data"`. -/
def seqState : PipelineState :=
  Pipeline.init "/" 1 "/out" "ena" none (some "/data") none none none none
    none none none

/-- C7 witness at the concrete three-file directory `/data`. -/
theorem run_ena_local_dir_skips_network_witness :
    run_ena seqCollab seqState = Except.ok
      ([("sequence_dir", PyValue.str "/data"),
        ("sequence_files", PyValue.strList
          (list_sequence_files (seqCollab.dirTree "/data") "/data" true).1)],
       seqState,
       Event.printMsg ("Using local sequences from directory: " ++ "/data")
         :: (list_sequence_files (seqCollab.dirTree "/data") "/data" true).2)
    ∧ ∀ e ∈ Event.printMsg ("Using local sequences from directory: " ++ "/data")
         :: (list_sequence_files (seqCollab.dirTree "/data") "/data" true).2,
        ∃ m, e = Event.printMsg m :=
  run_ena_local_dir_skips_network seqCollab seqState "/data" rfl (by decide)

theorem resolve_genome_hint_preserves (c : Collaborators)
    (st1 st2 : PipelineState) (ev1 : List Event)
    (h : resolve_genome_hint c st1 = Except.ok (st2, ev1)) :
    st2.taxonomy_id = st1.taxonomy_id ∧ st2.outdir = st1.outdir
    ∧ st2.mode = st1.mode ∧ st2.filter = st1.filter
    ∧ st2.sequence_dir = st1.sequence_dir := by
  unfold resolve_genome_hint at h
  split at h
  · split at h
    · cases h
    · simp only [Except.ok.injEq, Prod.mk.injEq] at h
      obtain ⟨h2, h3⟩ := h
      subst h2
      exact ⟨rfl, rfl, rfl, rfl, rfl⟩
  · split at h <;>
    · simp only [Except.ok.injEq, Prod.mk.injEq] at h
      obtain ⟨h2, h3⟩ := h
      subst h2
      exact ⟨rfl, rfl, rfl, rfl, rfl⟩

theorem resolve_genome_hint_events (c : Collaborators)
    (st1 st2 : PipelineState) (ev1 : List Event)
    (h : resolve_genome_hint c st1 = Except.ok (st2, ev1)) :
    (∃ p, ev1 = [Event.calcCall p]) ∨ ∃ m, ev1 = [Event.printMsg m] := by
  unfold resolve_genome_hint at h
  split at h
  · split at h
    · cases h
    · simp only [Except.ok.injEq, Prod.mk.injEq] at h
      exact Or.inl ⟨_, h.2.symm⟩
  · split at h <;>
    · simp only [Except.ok.injEq, Prod.mk.injEq] at h
      exact Or.inr ⟨_, h.2.symm⟩

/-- After a successful hint resolution, `run_ena` reaches the search phase:
it succeeds, its state is the resolved one, the search collaborator is
invoked with the resolved ungapped size, and the resolution's events are in
the trace. -/
theorem run_ena_search_phase (c : Collaborators) (st st2 : PipelineState)
    (ev1 : List Event) (h1 : pyTruthyStr st.sequence_dir = false)
    (hres : resolve_genome_hint c { st with sequence_dir := some st.outdir }
      = Except.ok (st2, ev1)) :
    ∃ r ev, run_ena c st = Except.ok (r, st2, ev)
      ∧ Event.searchCall st2.genome_size_ungapped ∈ ev
      ∧ ∀ e ∈ ev1, e ∈ ev := by
  have ht : ¬pyTruthyStr st.sequence_dir = true := by
    rw [h1]
    exact Bool.false_ne_true
  unfold run_ena
  rw [if_neg ht, hres]
  dsimp only
  by_cases hemp :
      (c.search_sequence_data st2.genome_size_ungapped).isEmpty = true
  · rw [if_pos hemp]
    refine ⟨_, _, rfl, ?_, ?_⟩
    · simp
    · intro e he
      simp [he]
  · rw [if_neg hemp]
    refine ⟨_, _, rfl, ?_, ?_⟩
    · simp
    · intro e he
      simp [he]

/-- C8: with no truthy local sequence directory and a search collaborator
returning no candidates, a completed Sequencing Data Stage returns exactly
`{sequence_dir, sequence_data: []}` (a success, not an error) and the
download collaborator is never invoked. -/
theorem run_ena_no_candidates (c : Collaborators) (st : PipelineState)
    (r : PyDict) (st2 : PipelineState) (ev : List Event)
    (h1 : pyTruthyStr st.sequence_dir = false)
    (h2 : ∀ g, c.search_sequence_data g = [])
    (h3 : run_ena c st = Except.ok (r, st2, ev)) :
    r = [("sequence_dir", PyValue.str st.outdir),
         ("sequence_data", PyValue.strList [])]
    ∧ ∀ cands dest, Event.downloadCall cands dest ∉ ev := by
  have ht : ¬pyTruthyStr st.sequence_dir = true := by
    rw [h1]
    exact Bool.false_ne_true
  unfold run_ena at h3
  rw [if_neg ht] at h3
  cases hres : resolve_genome_hint c { st with sequence_dir := some st.outdir } with
  | error e => rw [hres] at h3; cases h3
  | ok p =>
    obtain ⟨st2m, ev1⟩ := p
    rw [hres] at h3
    dsimp only at h3
    rw [h2 st2m.genome_size_ungapped] at h3
    rw [if_pos (show ([] : List String).isEmpty = true from rfl)] at h3
    simp only [Except.ok.injEq, Prod.mk.injEq] at h3
    obtain ⟨hr, hst, hev⟩ := h3
    have hsd : st2m.sequence_dir = some st.outdir :=
      (resolve_genome_hint_preserves c _ st2m ev1 hres).2.2.2.2
    constructor
    · rw [← hr, hsd]
      rfl
    · intro cands dest hmem
      rw [← hev] at hmem
      rcases resolve_genome_hint_events c _ st2m ev1 hres with ⟨pth, hev1⟩ | ⟨m, hev1⟩ <;>
      · rw [hev1] at hmem
        simp at hmem

/-- C8 witness: a falsy sequence directory and a search collaborator that
always answers with no candidates. -/
theorem run_ena_no_candidates_witness :
    ([("sequence_dir", PyValue.str "/out"),
      ("sequence_data", PyValue.strList [])] : PyDict)
      = [("sequence_dir", PyValue.str enaState.outdir),
         ("sequence_data", PyValue.strList [])]
    ∧ ∀ cands dest, Event.downloadCall cands dest ∉
        [Event.printMsg "Searching for sequence data in ENA...",
         Event.printMsg "Genome size not provided. The coverage filter may not be optimal without it.",
         Event.searchCall none,
         Event.printMsg "No sequence data found."] :=
  run_ena_no_candidates sampleCollab enaState _ _ _ (by decide)
    (fun g => rfl) rfl

/-- C10: with a falsy sequence directory and a stored ungapped genome size
of `0`, the hint resolution treats `0` as absent: a truthy reference genome
triggers a recomputation from that file (the calculator is invoked and the
search collaborator receives the recomputed size, not `0`); with no truthy
reference genome the advisory is printed and the search collaborator
receives the original falsy value. -/
theorem zero_genome_size_treated_absent (c : Collaborators)
    (st : PipelineState) (h1 : pyTruthyStr st.sequence_dir = false)
    (h2 : st.genome_size_ungapped = some 0) :
    (∀ content : String, pyTruthyStr st.reference_genome = true →
        c.fs (st.reference_genome.getD "") = some content →
        ∃ r st2 ev, run_ena c st = Except.ok (r, st2, ev)
          ∧ Event.calcCall (st.reference_genome.getD "") ∈ ev
          ∧ Event.searchCall
              (some (calculate_genome_size_from_content content).2) ∈ ev
          ∧ st2.genome_size_ungapped
              = some (calculate_genome_size_from_content content).2)
    ∧ (pyTruthyStr st.reference_genome = false →
        ∃ r st2 ev, run_ena c st = Except.ok (r, st2, ev)
          ∧ Event.searchCall (some 0) ∈ ev
          ∧ pyTruthyNat (some 0) = false
          ∧ Event.printMsg "Genome size not provided. The coverage filter may not be optimal without it."
              ∈ ev) := by
  constructor
  · intro content href hfs
    have hres : resolve_genome_hint c { st with sequence_dir := some st.outdir }
        = Except.ok
          ({ st with
               sequence_dir := some st.outdir,
               genome_size := some (calculate_genome_size_from_content content).1,
               genome_size_ungapped :=
                 some (calculate_genome_size_from_content content).2 },
           [Event.calcCall (st.reference_genome.getD "")]) := by
      unfold resolve_genome_hint calculate_genome_size_from_file
      dsimp only
      rw [h2, href, hfs]
      rfl
    obtain ⟨r, ev, hrun, hsearch, hsub⟩ :=
      run_ena_search_phase c st _ _ h1 hres
    refine ⟨r, _, ev, hrun, ?_, hsearch, rfl⟩
    exact hsub _ (by simp)
  · intro href
    have hres : resolve_genome_hint c { st with sequence_dir := some st.outdir }
        = Except.ok
          ({ st with sequence_dir := some st.outdir },
           [Event.printMsg "Genome size not provided. The coverage filter may not be optimal without it."]) := by
      unfold resolve_genome_hint
      dsimp only
      rw [h2, href]
      rfl
    obtain ⟨r, ev, hrun, hsearch, hsub⟩ :=
      run_ena_search_phase c st _ _ h1 hres
    refine ⟨r, _, ev, hrun, ?_, rfl, ?_⟩
    · rw [← h2]
      exact hsearch
    · exact hsub _ (by simp)

/-- The environment of the C10 scenario: a readable reference genome at
`/ref.fa` whose content sizes to `(5, 4)`. -/
def zeroCollab : Collaborators :=
  { sampleCollab with
    fs := fun p => if p = "/ref.fa" then some ">x\nACGTN\n" else none }

/-- A pipeline constructed in mode `ena` with `reference_genome = "/ref.fa"`
and a pre-known ungapped genome size of `0`. -/
def zeroState : PipelineState :=
  Pipeline.init "/" 1 "/out" "ena" (some "/ref.fa") none (some 0) none none
    none none none none

/-- C10 witness at the concrete zero-size, reference-supplied pipeline. -/
theorem zero_genome_size_treated_absent_witness :
    (∀ content : String, pyTruthyStr zeroState.reference_genome = true →
        zeroCollab.fs (zeroState.reference_genome.getD "") = some content →
        ∃ r st2 ev, run_ena zeroCollab zeroState = Except.ok (r, st2, ev)
          ∧ Event.calcCall (zeroState.reference_genome.getD "") ∈ ev
          ∧ Event.searchCall
              (some (calculate_genome_size_from_content content).2) ∈ ev
          ∧ st2.genome_size_ungapped
              = some (calculate_genome_size_from_content content).2)
    ∧ (pyTruthyStr zeroState.reference_genome = false →
        ∃ r st2 ev, run_ena zeroCollab zeroState = Except.ok (r, st2, ev)
          ∧ Event.searchCall (some 0) ∈ ev
          ∧ pyTruthyNat (some 0) = false
          ∧ Event.printMsg "Genome size not provided. The coverage filter may not be optimal without it."
              ∈ ev) :=
  zero_genome_size_treated_absent zeroCollab zeroState (by decide) (by decide)

theorem run_refseq_preserves (c : Collaborators) (st : PipelineState)
    (r : PyDict) (st2 : PipelineState) (ev : List Event)
    (h : run_refseq c st = Except.ok (r, st2, ev)) :
    st2.taxonomy_id = st.taxonomy_id ∧ st2.outdir = st.outdir
    ∧ st2.mode = st.mode ∧ st2.filter = st.filter
    ∧ st2.sequence_dir = st.sequence_dir := by
  unfold run_refseq at h
  split at h
  · split at h
    · cases h
    · simp only [Except.ok.injEq, Prod.mk.injEq] at h
      obtain ⟨h1, h2, h3⟩ := h
      subst h2
      exact ⟨rfl, rfl, rfl, rfl, rfl⟩
  · rcases hg : c.get_refseq_genomes st.taxonomy_id with ⟨p, gs, gsu⟩
    rw [hg] at h
    dsimp only at h
    simp only [Except.ok.injEq, Prod.mk.injEq] at h
    obtain ⟨h1, h2, h3⟩ := h
    subst h2
    exact ⟨rfl, rfl, rfl, rfl, rfl⟩

theorem run_ena_preserves (c : Collaborators) (st : PipelineState)
    (r : PyDict) (st2 : PipelineState) (ev : List Event)
    (h : run_ena c st = Except.ok (r, st2, ev)) :
    st2.taxonomy_id = st.taxonomy_id ∧ st2.outdir = st.outdir
    ∧ st2.mode = st.mode ∧ st2.filter = st.filter := by
  unfold run_ena at h
  split at h
  · dsimp only at h
    simp only [Except.ok.injEq, Prod.mk.injEq] at h
    obtain ⟨h1, h2, h3⟩ := h
    subst h2
    exact ⟨rfl, rfl, rfl, rfl⟩
  · cases hres : resolve_genome_hint c { st with sequence_dir := some st.outdir } with
    | error e => rw [hres] at h; cases h
    | ok p =>
      obtain ⟨st2m, ev1⟩ := p
      rw [hres] at h
      dsimp only at h
      have hp := resolve_genome_hint_preserves c _ st2m ev1 hres
      split at h <;>
      · simp only [Except.ok.injEq, Prod.mk.injEq] at h
        obtain ⟨h1, h2, h3⟩ := h
        subst h2
        exact ⟨hp.1, hp.2.1, hp.2.2.1, hp.2.2.2.1⟩

/-- C2 (amended): the taxonomy identifier, output directory, mode and
filter bag are never mutated by a completed run in any mode; the reference
genome path, sequence directory and stored genome sizes, by contrast, are
working state the run may overwrite. -/
theorem run_preserves_core_config (c : Collaborators) (st : PipelineState)
    (res : Option PyDict) (st2 : PipelineState) (ev : List Event)
    (h : Pipeline.run c st = Except.ok (res, st2, ev)) :
    st2.taxonomy_id = st.taxonomy_id ∧ st2.outdir = st.outdir
    ∧ st2.mode = st.mode ∧ st2.filter = st.filter := by
  unfold Pipeline.run at h
  split at h
  · cases hr : run_refseq c st with
    | error e => rw [hr] at h; cases h
    | ok p =>
      obtain ⟨r1, st1, ev1⟩ := p
      rw [hr] at h
      dsimp only at h
      simp only [Except.ok.injEq, Prod.mk.injEq] at h
      obtain ⟨h1, h2, h3⟩ := h
      subst h2
      have hp := run_refseq_preserves c st r1 st1 ev1 hr
      exact ⟨hp.1, hp.2.1, hp.2.2.1, hp.2.2.2.1⟩
  · split at h
    · cases hr : run_ena c st with
      | error e => rw [hr] at h; cases h
      | ok p =>
        obtain ⟨r1, st1, ev1⟩ := p
        rw [hr] at h
        dsimp only at h
        simp only [Except.ok.injEq, Prod.mk.injEq] at h
        obtain ⟨h1, h2, h3⟩ := h
        subst h2
        exact run_ena_preserves c st r1 st1 ev1 hr
    · split at h
      · cases hr : run_refseq c st with
        | error e => rw [hr] at h; cases h
        | ok p =>
          obtain ⟨r1, st1, ev1⟩ := p
          rw [hr] at h
          dsimp only at h
          cases he : run_ena c (adopt_refseq_results r1 st1) with
          | error e => rw [he] at h; cases h
          | ok q =>
            obtain ⟨r2, st3, ev2⟩ := q
            rw [he] at h
            dsimp only at h
            simp only [Except.ok.injEq, Prod.mk.injEq] at h
            obtain ⟨h1, h2, h3⟩ := h
            subst h2
            have hp1 := run_refseq_preserves c st r1 st1 ev1 hr
            have hp2 := run_ena_preserves c _ r2 st3 ev2 he
            exact ⟨hp2.1.trans hp1.1, hp2.2.1.trans hp1.2.1,
              hp2.2.2.1.trans hp1.2.2.1, hp2.2.2.2.trans hp1.2.2.2.1⟩
      · cases h

/-- C2 counterexample: one concrete `ena`-mode run (no local sequence
directory supplied) ends with `sequence_dir = some "/out"` although it was
`none` immediately after construction — the configuration is not left
unmutated by a run. -/
theorem run_mutates_sequence_dir :
    (Pipeline.run sampleCollab enaState).toOption.map
        (fun x => x.2.1.sequence_dir) = some (some "/out")
    ∧ enaState.sequence_dir = none := by decide

/-- C2 witness for the amended preservation theorem, at a concrete
completed `ena` run. -/
theorem run_preserves_core_config_witness :
    ({ enaState with sequence_dir := some "/out" } : PipelineState).taxonomy_id
        = enaState.taxonomy_id
    ∧ ({ enaState with sequence_dir := some "/out" } : PipelineState).outdir
        = enaState.outdir
    ∧ ({ enaState with sequence_dir := some "/out" } : PipelineState).mode
        = enaState.mode
    ∧ ({ enaState with sequence_dir := some "/out" } : PipelineState).filter
        = enaState.filter :=
  run_preserves_core_config sampleCollab enaState _ _ _ rfl

/-- C1 (code bug): a concrete `both`-mode run in which both stages complete
returns the Python value `None` — the `self.run_ena()` call on line 71 of
pipeline.py is not returned, so the caller receives neither the
sequencing-stage result the specification promises nor anything else. -/
theorem both_mode_returns_none :
    (Pipeline.run sampleCollab bothState).toOption.map (fun x => x.1)
      = some none := by decide


